import Mathlib

/-!
Shallow embedding of the article-downloader service (src/main.py).

The service is a single FastAPI app with two endpoints:
  GET  /health            -> a constant healthy response;
  POST /process-article   -> validate the body, check mail credentials,
                             fetch the page, clean the HTML, summarize,
                             render a PDF into a temporary file, email it,
                             and delete the temporary file on every exit path.

External effects (the HTTP fetch, the OpenAI call, the PDF rendering, the
SMTP send) are modelled as oracle functions carried by a `World`; the
filesystem is a list of existing paths; Python truthiness of `os.getenv`
results is modelled explicitly on `Option String`.
-/

namespace ArticleDownloader

/-! ## HTML documents (the BeautifulSoup tree) -/

/-- A parsed HTML tree: a text node, or an element with a tag name and
children. -/
inductive Html where
  | text (s : String)
  | elem (name : String) (children : List Html)

/-- The tag names removed by the cleaner: the lambda passed to `find_all`
in `process_article` matches `tag.name in ['style','script', 'img', 'path']`. -/
def removedName (n : String) : Bool :=
  ["style", "script", "img", "path"].contains n

mutual
/-- `tag.decompose()` applied to every matching tag: a node whose own name
matches is removed together with its whole subtree (`none`); otherwise the
node survives with its children cleaned. -/
def decomposeTags : Html → Option Html
  | .text s => some (.text s)
  | .elem n cs =>
      if removedName n then none
      else some (.elem n (decomposeList cs))

/-- `decomposeTags` mapped over a list of children, dropping removed nodes. -/
def decomposeList : List Html → List Html
  | [] => []
  | c :: t =>
      match decomposeTags c with
      | none => decomposeList t
      | some c2 => c2 :: decomposeList t
end

mutual
/-- `soup.get_text()`: the concatenation, in document order and with no
separator or whitespace normalization, of all text nodes of the tree. -/
def get_text : Html → String
  | .text s => s
  | .elem _ cs => getTextList cs

/-- `get_text` over a list of siblings, concatenated. -/
def getTextList : List Html → String
  | [] => ""
  | c :: t => get_text c ++ getTextList t
end

mutual
/-- Whether the tree still contains an element whose name is one of the
removed tag names. -/
def hasRemovedTag : Html → Bool
  | .text _ => false
  | .elem n cs => removedName n || hasRemovedList cs

/-- `hasRemovedTag` over a list of siblings. -/
def hasRemovedList : List Html → Bool
  | [] => false
  | c :: t => hasRemovedTag c || hasRemovedList t
end

mutual
/-- Specification-side description of the cleaner's output text: the
concatenation of the text nodes that do not sit under a removed element. -/
def keptText : Html → String
  | .text s => s
  | .elem n cs => if removedName n then "" else keptTextList cs

/-- `keptText` over a list of siblings. -/
def keptTextList : List Html → String
  | [] => ""
  | c :: t => keptText c ++ keptTextList t
end

/-- The cleaner as run by `process_article`: decompose the matching tags,
then take `get_text` of what is left (the empty string if the root itself
was removed). -/
def text_only (h : Html) : String :=
  match decomposeTags h with
  | none => ""
  | some h2 => get_text h2

/-! ## Request validation (the `ArticleRequest` pydantic model) -/

/-- The request body of POST /process-article. -/
structure ArticleRequest where
  url : String
  email : String
deriving DecidableEq

/-- Whether the first character list starts with the second
(`str.startswith` on the underlying characters). -/
def charsStartWith : List Char → List Char → Bool
  | _, [] => true
  | [], _ :: _ => false
  | a :: as, b :: bs => (a == b) && charsStartWith as bs

/-- Python `v.startswith(pre)`. -/
def strStartsWith (v pre : String) : Bool := charsStartWith v.data pre.data

/-- Python `c in v` for a single character. -/
def strContains (v : String) (c : Char) : Bool := v.data.contains c

/-- The `validate_url` validator: the url must start with `http://` or
`https://`. -/
def validate_url (v : String) : Except String String :=
  if strStartsWith v "http://" || strStartsWith v "https://" then .ok v
  else .error "URL must start with http:// or https://"

/-- The `validate_email` validator: the email must contain both `@` and `.`. -/
def validate_email (v : String) : Except String String :=
  if !(strContains v '@') || !(strContains v '.') then .error "Invalid email format"
  else .ok v

/-- Pydantic validation of the request body: both field validators run and
all failures are collected into the 422 response. -/
def parseArticleRequest (url email : String) : Except (List String) ArticleRequest :=
  match validate_url url, validate_email email with
  | .ok u, .ok e => .ok ⟨u, e⟩
  | .error e1, .ok _ => .error [e1]
  | .ok _, .error e2 => .error [e2]
  | .error e1, .error e2 => .error [e1, e2]

/-! ## Environment, external oracles and the filesystem -/

/-- The two environment variables read by the endpoint; `none` models an
absent variable, `some s` a variable set to `s`. -/
structure Env where
  EMAIL_USER : Option String
  EMAIL_PASSWORD : Option String
deriving DecidableEq

/-- Python truthiness of an `os.getenv` result: `None` and the empty string
are falsy, every other string is truthy. -/
def isTruthy : Option String → Bool
  | none => false
  | some s => !(s == "")

/-- The outcome of `requests.get(url)`: a raised `RequestException` (network
error), or an HTTP response with a status code, a reason phrase and a parsed
body. -/
inductive FetchResult where
  | exn (msg : String)
  | response (status : Nat) (reason : String) (body : Html)

/-- `Response.raise_for_status` raises `HTTPError` exactly for status codes
in 400..599. -/
def raisesForStatus (status : Nat) : Bool :=
  decide (400 ≤ status ∧ status < 600)

/-- The message of the `HTTPError` raised by `raise_for_status`. -/
def http_error_detail (status : Nat) (reason url : String) : String :=
  if status < 500 then
    toString status ++ " Client Error: " ++ reason ++ " for url: " ++ url
  else
    toString status ++ " Server Error: " ++ reason ++ " for url: " ++ url

/-- The outcome of the OpenAI `responses.create` call: the returned
`output_text`, or a raised exception. -/
inductive SummarizeResult where
  | ok (text : String)
  | exn (msg : String)
deriving DecidableEq

/-- The arguments of `send_email`. -/
structure EmailMsg where
  sender : String
  password : String
  recipient : String
  subject : String
  body : String
  pdfPath : String
deriving DecidableEq

/-- The external world of one request: the environment, the oracles for the
four external effects, the unique temporary path `NamedTemporaryFile`
generates, and the set of paths existing on disk. -/
structure World where
  env : Env
  fetch : String → FetchResult
  summarize : String → SummarizeResult
  render : String → String → Option String
  send : EmailMsg → Option String
  tempPath : String
  fs : List String

/-- `os.path.exists`. -/
def pathExists (p : String) : List String → Bool
  | [] => false
  | q :: t => (q == p) || pathExists p t

/-- Removal of a path from the filesystem. -/
def removeFile (p : String) : List String → List String
  | [] => []
  | q :: t => if q == p then removeFile p t else q :: removeFile p t

/-- `os.unlink`: removes an existing path, raises `FileNotFoundError` on a
missing one. -/
def os_unlink (p : String) (fs : List String) : Except String (List String) :=
  if pathExists p fs then .ok (removeFile p fs)
  else .error ("FileNotFoundError: " ++ p)

/-- The `finally` block of the endpoint:
`if os.path.exists(pdf_path): os.unlink(pdf_path)`. -/
def finallyCleanup (p : String) (fs : List String) : Except String (List String) :=
  if pathExists p fs then os_unlink p fs else .ok fs

/-! ## The pipeline and the endpoint -/

/-- What `process_article` produces: a 400 fetch failure, a 500
summarization failure, or the summarized article text. -/
inductive PipelineResult where
  | fetchError (detail : String)
  | summarizeError (detail : String)
  | content (text : String)
deriving DecidableEq

/-- The result of one run of `process_article`, together with how many times
each external network call was made. -/
structure PipelineRun where
  result : PipelineResult
  fetchCalls : Nat
  summarizeCalls : Nat
deriving DecidableEq

/-- `process_article(url)`: fetch the page (any `RequestException`, and any
status in 400..599 via `raise_for_status`, becomes a 400 `HTTPException`
whose detail carries the cause), clean the HTML, then call the summarizer
(any exception becomes a 500 `HTTPException` carrying the cause). -/
def process_article (w : World) (url : String) : PipelineRun :=
  match w.fetch url with
  | .exn msg =>
      ⟨.fetchError ("Failed to fetch article: " ++ msg), 1, 0⟩
  | .response status reason body =>
      if raisesForStatus status then
        ⟨.fetchError ("Failed to fetch article: " ++ http_error_detail status reason url), 1, 0⟩
      else
        match w.summarize (text_only body) with
        | .ok out => ⟨.content out, 1, 1⟩
        | .exn msg =>
            ⟨.summarizeError ("Failed to process article content: " ++ msg), 1, 1⟩

/-- An HTTP response of the service: a 200 with a message, an
`HTTPException` with a status and detail, or a pydantic 422 with the list of
validation messages. -/
inductive Response where
  | ok (message : String)
  | httpError (status : Nat) (detail : String)
  | validationError (details : List String)
deriving DecidableEq

/-- The observable outcome of one request: the HTTP response, the final
filesystem, whether an email was delivered, whether the temporary PDF file
was created, how many times each external effect ran, and whether an error
raised by the cleanup replaced the pipeline's own response. -/
structure Outcome where
  response : Response
  fs : List String
  emailSent : Bool
  pdfCreated : Bool
  fetchCalls : Nat
  summarizeCalls : Nat
  renderCalls : Nat
  sendCalls : Nat
  cleanupMasked : Bool
deriving DecidableEq

/-- The detail of the 500 raised when credentials are missing. -/
def config_error_detail : String :=
  "Email configuration is missing. Please set EMAIL_USER and EMAIL_PASSWORD in your .env file"

/-- The 200 body on full success. -/
def success_message : String := "Article has been processed and sent to your email!"

/-- The result of the `try` block of the endpoint: the response it settles
on, whether the email went out, and the render/send call counts. -/
structure TryResult where
  response : Response
  emailSent : Bool
  renderCalls : Nat
  sendCalls : Nat
deriving DecidableEq

/-- The `try` block: `create_pdf` then `send_email`; any exception becomes a
500 whose detail carries the cause. `send_email` opens the PDF file before
the SMTP transaction, so a missing file raises before any send is
attempted. -/
def tryBlock (w : World) (req : ArticleRequest) (article_content : String)
    (fs1 : List String) : TryResult :=
  match w.render article_content w.tempPath with
  | some err =>
      ⟨.httpError 500 ("Failed to process or send article: " ++ err), false, 1, 0⟩
  | none =>
      if pathExists w.tempPath fs1 then
        match w.send ⟨(w.env.EMAIL_USER).getD "", (w.env.EMAIL_PASSWORD).getD "",
                      req.email, "Article from " ++ req.url,
                      "Please find the attached article.", w.tempPath⟩ with
        | some err =>
            ⟨.httpError 500 ("Failed to process or send article: " ++ err), false, 1, 1⟩
        | none => ⟨.ok success_message, true, 1, 1⟩
      else
        ⟨.httpError 500
          ("Failed to process or send article: FileNotFoundError: " ++ w.tempPath),
          false, 1, 0⟩

/-- `process_article_endpoint`: check the two credentials up front (Python
truthiness, so absent and empty are alike), run `process_article`, create
the temporary PDF path, run the `try` block, and run the `finally` cleanup;
an error raised by the cleanup would replace the block's own response
(`cleanupMasked`). -/
def process_article_endpoint (w : World) (req : ArticleRequest) : Outcome :=
  if !(isTruthy w.env.EMAIL_USER) || !(isTruthy w.env.EMAIL_PASSWORD) then
    { response := .httpError 500 config_error_detail, fs := w.fs,
      emailSent := false, pdfCreated := false, fetchCalls := 0,
      summarizeCalls := 0, renderCalls := 0, sendCalls := 0,
      cleanupMasked := false }
  else
    match process_article w req.url with
    | ⟨.fetchError d, fc, sc⟩ =>
        { response := .httpError 400 d, fs := w.fs, emailSent := false,
          pdfCreated := false, fetchCalls := fc, summarizeCalls := sc,
          renderCalls := 0, sendCalls := 0, cleanupMasked := false }
    | ⟨.summarizeError d, fc, sc⟩ =>
        { response := .httpError 500 d, fs := w.fs, emailSent := false,
          pdfCreated := false, fetchCalls := fc, summarizeCalls := sc,
          renderCalls := 0, sendCalls := 0, cleanupMasked := false }
    | ⟨.content article_content, fc, sc⟩ =>
        match finallyCleanup w.tempPath (w.tempPath :: w.fs) with
        | .error cleanupErr =>
            { response := .httpError 500 cleanupErr, fs := w.tempPath :: w.fs,
              emailSent := (tryBlock w req article_content (w.tempPath :: w.fs)).emailSent,
              pdfCreated := true, fetchCalls := fc, summarizeCalls := sc,
              renderCalls := (tryBlock w req article_content (w.tempPath :: w.fs)).renderCalls,
              sendCalls := (tryBlock w req article_content (w.tempPath :: w.fs)).sendCalls,
              cleanupMasked := true }
        | .ok fs2 =>
            { response := (tryBlock w req article_content (w.tempPath :: w.fs)).response,
              fs := fs2,
              emailSent := (tryBlock w req article_content (w.tempPath :: w.fs)).emailSent,
              pdfCreated := true, fetchCalls := fc, summarizeCalls := sc,
              renderCalls := (tryBlock w req article_content (w.tempPath :: w.fs)).renderCalls,
              sendCalls := (tryBlock w req article_content (w.tempPath :: w.fs)).sendCalls,
              cleanupMasked := false }

/-- The whole POST /process-article route: pydantic validation first (a
failure is a 422 with no side effects), then the endpoint body. -/
def handle_request (w : World) (url email : String) : Outcome :=
  match parseArticleRequest url email with
  | .error ds =>
      { response := .validationError ds, fs := w.fs, emailSent := false,
        pdfCreated := false, fetchCalls := 0, summarizeCalls := 0,
        renderCalls := 0, sendCalls := 0, cleanupMasked := false }
  | .ok req => process_article_endpoint w req

/-- The body of GET /health. -/
structure HealthBody where
  status : String
deriving DecidableEq

/-- `health_check`: returns `{"status": "healthy"}` with HTTP 200 and
touches no state. -/
def health_check (w : World) : (Nat × HealthBody) × World :=
  ((200, ⟨"healthy"⟩), w)

/-! ## Concrete worlds used to instantiate the theorems -/

/-- A small fetched document containing a script element. -/
def demoHtml : Html :=
  .elem "html" [.elem "body" [.text "Hello ", .elem "script" [.text "var x;"],
    .text "world"]]

/-- A world in which every stage succeeds. -/
def okWorld : World :=
  { env := ⟨some "user@example.com", some "secret"⟩,
    fetch := fun _ => .response 200 "OK" demoHtml,
    summarize := fun _ => .ok "Title and body.",
    render := fun _ _ => none,
    send := fun _ => none,
    tempPath := "/tmp/tmpa1b2.pdf",
    fs := ["/srv/app/main.py"] }

/-- A world in which EMAIL_USER is absent from the environment. -/
def noCredWorld : World :=
  { okWorld with env := ⟨none, some "secret"⟩ }

/-- A world in which EMAIL_USER is set to the empty string. -/
def emptyCredWorld : World :=
  { okWorld with env := ⟨some "", some "secret"⟩ }

/-- A world in which the page fetch returns HTTP 304 Not Modified, a
non-2xx status outside 400..599. -/
def notModifiedWorld : World :=
  { okWorld with fetch := fun _ => .response 304 "Not Modified" demoHtml }

/-- A world in which the page fetch raises a network error. -/
def refusedWorld : World :=
  { okWorld with fetch := fun _ => .exn "Connection refused" }

/-- A world in which the summarization call raises. -/
def summarizeFailWorld : World :=
  { okWorld with summarize := fun _ => .exn "rate limited" }

/-! ## Helper lemmas -/

/-- A path is gone after `removeFile` removes it. -/
theorem pathExists_removeFile (p : String) (fs : List String) :
    pathExists p (removeFile p fs) = false := by
  induction fs with
  | nil => rfl
  | cons q t ih =>
      cases hq : (q == p) with
      | true => simp [removeFile, hq, ih]
      | false => simp [removeFile, pathExists, hq, ih]

/-- The `finally` block on a filesystem that holds the temporary file:
the guarded unlink succeeds and removes the path. -/
theorem finallyCleanup_cons (p : String) (fs : List String) :
    finallyCleanup p (p :: fs) = .ok (removeFile p (p :: fs)) := by
  simp [finallyCleanup, os_unlink, pathExists]

/-- Either no temporary PDF was created, or the final filesystem is the
initial one with the temporary path unlinked. -/
theorem handle_request_fs_cases (w : World) (url email : String) :
    (handle_request w url email).pdfCreated = false ∨
    (handle_request w url email).fs = removeFile w.tempPath (w.tempPath :: w.fs) := by
  unfold handle_request process_article_endpoint
  split
  · exact Or.inl rfl
  · split
    · exact Or.inl rfl
    · split
      · exact Or.inl rfl
      · exact Or.inl rfl
      · rw [finallyCleanup_cons]
        exact Or.inr rfl

/-! ## Claims -/

/-- C1: whenever a /process-article request created the temporary PDF file,
that ephemeral path no longer exists on the final filesystem, on every exit
path (successful send, render failure, send failure). -/
theorem temp_pdf_deleted (w : World) (url email : String)
    (h : (handle_request w url email).pdfCreated = true) :
    pathExists w.tempPath (handle_request w url email).fs = false := by
  rcases handle_request_fs_cases w url email with hc | hc
  · rw [h] at hc
    exact absurd hc (by simp)
  · rw [hc]
    exact pathExists_removeFile w.tempPath (w.tempPath :: w.fs)

/-- Witness for C1: a fully successful run creates the PDF and its path is
gone from the final filesystem. -/
theorem temp_pdf_deleted_witness :
    (handle_request okWorld "https://example.com/a" "reader@example.com").pdfCreated = true ∧
    pathExists okWorld.tempPath
      (handle_request okWorld "https://example.com/a" "reader@example.com").fs = false :=
  ⟨by decide,
    temp_pdf_deleted okWorld "https://example.com/a" "reader@example.com" (by decide)⟩

/-- C8: a failing pipeline's error is never replaced by an error raised
from the temporary-file cleanup: the guarded unlink of the `finally` block
cannot raise, so the masked-response branch is unreachable on every run. -/
theorem cleanup_never_masks (w : World) (url email : String) :
    (handle_request w url email).cleanupMasked = false ∧
    (∀ (p : String) (fs : List String), ∃ fs2, finallyCleanup p fs = .ok fs2) := by
  constructor
  · unfold handle_request process_article_endpoint
    split
    · rfl
    · split
      · rfl
      · split
        · rfl
        · rfl
        · rw [finallyCleanup_cons]
  · intro p fs
    cases hp : pathExists p fs with
    | true => exact ⟨removeFile p fs, by simp [finallyCleanup, os_unlink, hp]⟩
    | false => exact ⟨fs, by simp [finallyCleanup, hp]⟩

/-- C9: GET /health returns HTTP 200 with body status "healthy" in every
world, and leaves the world untouched (no side effects). -/
theorem health_check_ok (w : World) :
    health_check w = ((200, ⟨"healthy"⟩), w) := rfl

/-- Two strings with different first characters differ. -/
theorem string_ne_of_head (a b : String) (h : a.data.head? ≠ b.data.head?) :
    a ≠ b :=
  fun he => h (by rw [he])

/-- The characters of an appended string. -/
theorem data_append_eq (a b : String) : (a ++ b).data = a.data ++ b.data := by
  cases a
  cases b
  rfl

/-- The first character of the configuration-error detail. -/
theorem config_head : config_error_detail.data.head? = some 'E' := rfl

/-- The configuration-error detail starts with 'E', so it differs from
every string extending a prefix that starts with 'F' (all three pipeline
error details do). -/
theorem config_ne_failed_prefixed (pre s : String)
    (h : pre.data.head? = some 'F') :
    config_error_detail ≠ pre ++ s := by
  apply string_ne_of_head
  rw [data_append_eq, config_head]
  cases hd : pre.data with
  | nil => rw [hd] at h; exact absurd h (by simp)
  | cons x t =>
      simp only [hd, List.head?_cons, Option.some.injEq] at h
      simp only [List.cons_append, List.head?_cons, h]
      decide

/-- Missing (or falsy) credentials short-circuit the endpoint into the
configuration-error outcome, with no pipeline work. -/
theorem endpoint_config_error (w : World) (req : ArticleRequest)
    (h : isTruthy w.env.EMAIL_USER = false ∨ isTruthy w.env.EMAIL_PASSWORD = false) :
    process_article_endpoint w req =
      { response := .httpError 500 config_error_detail, fs := w.fs,
        emailSent := false, pdfCreated := false, fetchCalls := 0,
        summarizeCalls := 0, renderCalls := 0, sendCalls := 0,
        cleanupMasked := false } := by
  have hcond : (!(isTruthy w.env.EMAIL_USER) || !(isTruthy w.env.EMAIL_PASSWORD)) = true := by
    rcases h with h | h <;> simp [h]
  unfold process_article_endpoint
  rw [if_pos hcond]

/-- C2: with EMAIL_USER or EMAIL_PASSWORD missing, the endpoint returns the
500 configuration error before any fetch, summarization, rendering or send
is attempted, and that detail differs from every pipeline error detail. -/
theorem missing_credentials_fail_fast (w : World) (req : ArticleRequest)
    (h : isTruthy w.env.EMAIL_USER = false ∨ isTruthy w.env.EMAIL_PASSWORD = false) :
    (process_article_endpoint w req).response = .httpError 500 config_error_detail ∧
    (process_article_endpoint w req).fetchCalls = 0 ∧
    (process_article_endpoint w req).summarizeCalls = 0 ∧
    (process_article_endpoint w req).renderCalls = 0 ∧
    (process_article_endpoint w req).sendCalls = 0 ∧
    (∀ s : String, config_error_detail ≠ "Failed to fetch article: " ++ s) ∧
    (∀ s : String, config_error_detail ≠ "Failed to process article content: " ++ s) ∧
    (∀ s : String, config_error_detail ≠ "Failed to process or send article: " ++ s) := by
  rw [endpoint_config_error w req h]
  exact ⟨rfl, rfl, rfl, rfl, rfl,
    fun s => config_ne_failed_prefixed _ s rfl,
    fun s => config_ne_failed_prefixed _ s rfl,
    fun s => config_ne_failed_prefixed _ s rfl⟩

/-- Witness for C2: with EMAIL_USER absent the endpoint returns the
configuration error and performs no fetch. -/
theorem missing_credentials_fail_fast_witness :
    isTruthy noCredWorld.env.EMAIL_USER = false ∧
    (process_article_endpoint noCredWorld ⟨"https://example.com/a", "reader@example.com"⟩).response =
      .httpError 500 config_error_detail ∧
    (process_article_endpoint noCredWorld ⟨"https://example.com/a", "reader@example.com"⟩).fetchCalls = 0 :=
  ⟨rfl,
    (missing_credentials_fail_fast noCredWorld ⟨"https://example.com/a", "reader@example.com"⟩
      (Or.inl rfl)).1,
    (missing_credentials_fail_fast noCredWorld ⟨"https://example.com/a", "reader@example.com"⟩
      (Or.inl rfl)).2.1⟩

/-- C10: a credential set to the empty string is falsy in Python, so it is
treated exactly like an absent credential: the endpoint returns the 500
configuration error with no pipeline work, and substituting an empty-string
credential for an absent one never changes the outcome. -/
theorem empty_credentials_like_absent (w : World) (req : ArticleRequest)
    (h : w.env.EMAIL_USER = some "" ∨ w.env.EMAIL_PASSWORD = some "") :
    (process_article_endpoint w req).response = .httpError 500 config_error_detail ∧
    (process_article_endpoint w req).fetchCalls = 0 ∧
    (process_article_endpoint w req).summarizeCalls = 0 ∧
    (process_article_endpoint w req).renderCalls = 0 ∧
    (process_article_endpoint w req).sendCalls = 0 ∧
    (∀ (w2 : World) (req2 : ArticleRequest),
        process_article_endpoint { w2 with env := ⟨some "", w2.env.EMAIL_PASSWORD⟩ } req2 =
        process_article_endpoint { w2 with env := ⟨none, w2.env.EMAIL_PASSWORD⟩ } req2) ∧
    (∀ (w2 : World) (req2 : ArticleRequest),
        process_article_endpoint { w2 with env := ⟨w2.env.EMAIL_USER, some ""⟩ } req2 =
        process_article_endpoint { w2 with env := ⟨w2.env.EMAIL_USER, none⟩ } req2) := by
  have htr : isTruthy w.env.EMAIL_USER = false ∨ isTruthy w.env.EMAIL_PASSWORD = false := by
    rcases h with h | h
    · exact Or.inl (by rw [h]; rfl)
    · exact Or.inr (by rw [h]; rfl)
  rw [endpoint_config_error w req htr]
  refine ⟨rfl, rfl, rfl, rfl, rfl, ?_, ?_⟩
  · intro w2 req2
    rw [endpoint_config_error { w2 with env := ⟨some "", w2.env.EMAIL_PASSWORD⟩ } req2 (Or.inl rfl),
      endpoint_config_error { w2 with env := ⟨none, w2.env.EMAIL_PASSWORD⟩ } req2 (Or.inl rfl)]
  · intro w2 req2
    rw [endpoint_config_error { w2 with env := ⟨w2.env.EMAIL_USER, some ""⟩ } req2 (Or.inr rfl),
      endpoint_config_error { w2 with env := ⟨w2.env.EMAIL_USER, none⟩ } req2 (Or.inr rfl)]

/-- An invalid email makes `validate_email` fail. -/
theorem validate_email_error (email : String)
    (h : strContains email '@' = false ∨ strContains email '.' = false) :
    validate_email email = .error "Invalid email format" := by
  unfold validate_email
  rcases h with h | h <;> simp [h]

/-- An invalid scheme makes `validate_url` fail. -/
theorem validate_url_error (url : String)
    (h : strStartsWith url "http://" = false ∧ strStartsWith url "https://" = false) :
    validate_url url = .error "URL must start with http:// or https://" := by
  unfold validate_url
  simp [h.1, h.2]

/-- C3: a body whose url does not start with http:// or https://, or whose
email lacks '@' or lacks '.', is rejected by pydantic as a 422 validation
error, before any fetch, summarization or send. -/
theorem invalid_body_rejected (w : World) (url email : String)
    (h : (strStartsWith url "http://" = false ∧ strStartsWith url "https://" = false) ∨
         strContains email '@' = false ∨ strContains email '.' = false) :
    (∃ ds, (handle_request w url email).response = .validationError ds) ∧
    (handle_request w url email).fetchCalls = 0 ∧
    (handle_request w url email).summarizeCalls = 0 ∧
    (handle_request w url email).renderCalls = 0 ∧
    (handle_request w url email).sendCalls = 0 := by
  have hp : ∃ ds, parseArticleRequest url email = .error ds := by
    unfold parseArticleRequest
    rcases h with hu | hx
    · rw [validate_url_error url hu]
      cases validate_email email
      · exact ⟨_, rfl⟩
      · exact ⟨_, rfl⟩
    · rw [validate_email_error email hx]
      cases validate_url url
      · exact ⟨_, rfl⟩
      · exact ⟨_, rfl⟩
  obtain ⟨ds, hds⟩ := hp
  unfold handle_request
  rw [hds]
  exact ⟨⟨ds, rfl⟩, rfl, rfl, rfl, rfl⟩

/-- Witness for C3: a ftp:// url is rejected with no fetch. -/
theorem invalid_body_rejected_witness :
    (strStartsWith "ftp://example.com" "http://" = false ∧
      strStartsWith "ftp://example.com" "https://" = false) ∧
    (∃ ds, (handle_request okWorld "ftp://example.com" "reader@example.com").response =
      .validationError ds) ∧
    (handle_request okWorld "ftp://example.com" "reader@example.com").fetchCalls = 0 :=
  ⟨⟨by decide, by decide⟩,
    (invalid_body_rejected okWorld "ftp://example.com" "reader@example.com"
      (Or.inl ⟨by decide, by decide⟩)).1,
    (invalid_body_rejected okWorld "ftp://example.com" "reader@example.com"
      (Or.inl ⟨by decide, by decide⟩)).2.1⟩

/-- The try block settles on the success message exactly when the send
succeeded. -/
theorem tryBlock_success_iff (w : World) (req : ArticleRequest) (c : String)
    (fs1 : List String) :
    ((tryBlock w req c fs1).response = .ok success_message ↔
      (tryBlock w req c fs1).emailSent = true) := by
  unfold tryBlock
  split
  · simp
  · split
    · split
      · simp
      · simp
    · simp

/-- C5: there is no partial success: the handler's response is the 200
success message exactly when the email went out; every failing run delivers
nothing. -/
theorem no_partial_success (w : World) (url email : String) :
    ((handle_request w url email).response = .ok success_message ↔
      (handle_request w url email).emailSent = true) := by
  unfold handle_request process_article_endpoint
  split
  · simp
  · split
    · simp
    · split
      · simp
      · simp
      · rw [finallyCleanup_cons]
        exact tryBlock_success_iff _ _ _ _

/-- The summarizer is called at most once per `process_article` run. -/
theorem pipeline_summarizeCalls_le_one (w : World) (url : String) :
    (process_article w url).summarizeCalls ≤ 1 := by
  unfold process_article
  split
  · exact Nat.zero_le 1
  · split
    · exact Nat.zero_le 1
    · split
      · exact Nat.le_refl 1
      · exact Nat.le_refl 1

/-- The summarizer is called at most once per endpoint run: no retry. -/
theorem endpoint_summarizeCalls_le_one (w : World) (req : ArticleRequest) :
    (process_article_endpoint w req).summarizeCalls ≤ 1 := by
  have hb := pipeline_summarizeCalls_le_one w req.url
  unfold process_article_endpoint
  split
  · exact Nat.zero_le 1
  · rcases hr : process_article w req.url with ⟨res, fc, sc⟩
    rw [hr] at hb
    cases res with
    | fetchError d => exact hb
    | summarizeError d => exact hb
    | content c =>
        dsimp only
        split
        · exact hb
        · exact hb

/-- The creds-present condition of the endpoint evaluates to false. -/
theorem creds_cond_false (w : World)
    (hu : isTruthy w.env.EMAIL_USER = true)
    (hp2 : isTruthy w.env.EMAIL_PASSWORD = true) :
    ¬((!(isTruthy w.env.EMAIL_USER) || !(isTruthy w.env.EMAIL_PASSWORD)) = true) := by
  simp [hu, hp2]

/-- C6: an error from the external summarization call surfaces as an HTTP
500 carrying the underlying cause, and the call is never retried: it runs
exactly once on such a request, and at most once on every request. -/
theorem summarize_error_500 (w : World) (req : ArticleRequest)
    (hu : isTruthy w.env.EMAIL_USER = true)
    (hp2 : isTruthy w.env.EMAIL_PASSWORD = true)
    (st : Nat) (r : String) (b : Html) (msg : String)
    (hf : w.fetch req.url = .response st r b)
    (hst : raisesForStatus st = false)
    (hs : w.summarize (text_only b) = .exn msg) :
    (process_article_endpoint w req).response =
      .httpError 500 ("Failed to process article content: " ++ msg) ∧
    (process_article_endpoint w req).summarizeCalls = 1 ∧
    (∀ (w2 : World) (req2 : ArticleRequest),
      (process_article_endpoint w2 req2).summarizeCalls ≤ 1) := by
  have hrun : process_article w req.url =
      ⟨.summarizeError ("Failed to process article content: " ++ msg), 1, 1⟩ := by
    unfold process_article
    rw [hf]
    simp only [hst, Bool.false_eq_true, if_false, hs]
  unfold process_article_endpoint
  rw [if_neg (creds_cond_false w hu hp2), hrun]
  exact ⟨rfl, rfl, fun w2 req2 => endpoint_summarizeCalls_le_one w2 req2⟩

/-- Witness for C6: a failing summarizer call yields the 500 with its
cause. -/
theorem summarize_error_500_witness :
    summarizeFailWorld.summarize (text_only demoHtml) = .exn "rate limited" ∧
    (process_article_endpoint summarizeFailWorld
        ⟨"https://example.com/a", "reader@example.com"⟩).response =
      .httpError 500 ("Failed to process article content: " ++ "rate limited") :=
  ⟨rfl,
    (summarize_error_500 summarizeFailWorld ⟨"https://example.com/a", "reader@example.com"⟩
      rfl rfl 200 "OK" demoHtml "rate limited" rfl rfl rfl).1⟩

/-- C4 counterexample: the fetch of this request returns HTTP 304, a
non-2xx status, yet the service does not return a 400 fetch error: the 304
passes `raise_for_status` untouched, the pipeline runs to the end, the
email is sent and the response is the 200 success message. -/
theorem fetch_non2xx_counterexample :
    notModifiedWorld.fetch "https://example.com/a" =
      .response 304 "Not Modified" demoHtml ∧
    ¬(200 ≤ 304 ∧ 304 < 300) ∧
    raisesForStatus 304 = false ∧
    (handle_request notModifiedWorld "https://example.com/a" "reader@example.com").emailSent = true ∧
    (handle_request notModifiedWorld "https://example.com/a" "reader@example.com").response =
      .ok success_message :=
  ⟨rfl, by decide, by decide, by decide, by decide⟩

/-- C4 (amended): a fetch that raises a network error or returns a status
in 400..599 makes the endpoint answer HTTP 400 with a detail identifying
the fetch failure and carrying the underlying cause; no PDF file is
created, no render or send runs and no email is sent. -/
theorem fetch_failure_400 (w : World) (req : ArticleRequest)
    (hu : isTruthy w.env.EMAIL_USER = true)
    (hp2 : isTruthy w.env.EMAIL_PASSWORD = true)
    (hf : (∃ msg, w.fetch req.url = .exn msg) ∨
          (∃ st r b, w.fetch req.url = .response st r b ∧ 400 ≤ st ∧ st < 600)) :
    (∃ cause, (process_article_endpoint w req).response =
        .httpError 400 ("Failed to fetch article: " ++ cause)) ∧
    (process_article_endpoint w req).pdfCreated = false ∧
    (process_article_endpoint w req).emailSent = false ∧
    (process_article_endpoint w req).renderCalls = 0 ∧
    (process_article_endpoint w req).sendCalls = 0 := by
  obtain ⟨cause, hrun⟩ : ∃ cause, process_article w req.url =
      ⟨.fetchError ("Failed to fetch article: " ++ cause), 1, 0⟩ := by
    rcases hf with ⟨msg, hfe⟩ | ⟨st, r, b, hfe, h4, h6⟩
    · exact ⟨msg, by unfold process_article; rw [hfe]⟩
    · refine ⟨http_error_detail st r req.url, ?_⟩
      have hraise : raisesForStatus st = true := decide_eq_true ⟨h4, h6⟩
      unfold process_article
      rw [hfe]
      simp only [hraise, if_true]
  unfold process_article_endpoint
  rw [if_neg (creds_cond_false w hu hp2), hrun]
  exact ⟨⟨cause, rfl⟩, rfl, rfl, rfl, rfl⟩

/-- Witness for C4: a connection-refused fetch yields the 400 with its
cause and no email. -/
theorem fetch_failure_400_witness :
    isTruthy refusedWorld.env.EMAIL_USER = true ∧
    refusedWorld.fetch "https://example.com/a" = .exn "Connection refused" ∧
    (∃ cause, (process_article_endpoint refusedWorld
        ⟨"https://example.com/a", "reader@example.com"⟩).response =
      .httpError 400 ("Failed to fetch article: " ++ cause)) ∧
    (process_article_endpoint refusedWorld
        ⟨"https://example.com/a", "reader@example.com"⟩).emailSent = false :=
  ⟨rfl, rfl,
    (fetch_failure_400 refusedWorld ⟨"https://example.com/a", "reader@example.com"⟩
      rfl rfl (Or.inl ⟨"Connection refused", rfl⟩)).1,
    (fetch_failure_400 refusedWorld ⟨"https://example.com/a", "reader@example.com"⟩
      rfl rfl (Or.inl ⟨"Connection refused", rfl⟩)).2.2.1⟩

/-- Witness for C10: EMAIL_USER set to the empty string yields the
configuration error with no fetch. -/
theorem empty_credentials_like_absent_witness :
    emptyCredWorld.env.EMAIL_USER = some "" ∧
    (process_article_endpoint emptyCredWorld ⟨"https://example.com/a", "reader@example.com"⟩).response =
      .httpError 500 config_error_detail ∧
    (process_article_endpoint emptyCredWorld ⟨"https://example.com/a", "reader@example.com"⟩).fetchCalls = 0 :=
  ⟨rfl,
    (empty_credentials_like_absent emptyCredWorld ⟨"https://example.com/a", "reader@example.com"⟩
      (Or.inl rfl)).1,
    (empty_credentials_like_absent emptyCredWorld ⟨"https://example.com/a", "reader@example.com"⟩
      (Or.inl rfl)).2.1⟩

/-- Appending to the empty string. -/
theorem empty_append_str (s : String) : "" ++ s = s := by
  cases s
  rfl

mutual
/-- A tree surviving decomposition holds no removed-name element. -/
theorem decompose_no_removed : ∀ (h h2 : Html),
    decomposeTags h = some h2 → hasRemovedTag h2 = false
  | .text s, h2, he => by
      unfold decomposeTags at he
      simp only [Option.some.injEq] at he
      rw [← he]
      rfl
  | .elem n cs, h2, he => by
      unfold decomposeTags at he
      cases hrn : removedName n with
      | true => rw [hrn] at he; simp at he
      | false =>
          rw [hrn] at he
          simp only [Bool.false_eq_true, if_false, Option.some.injEq] at he
          rw [← he]
          unfold hasRemovedTag
          rw [hrn, decomposeList_no_removed cs]
          rfl

/-- A decomposed child list holds no removed-name element. -/
theorem decomposeList_no_removed : ∀ l : List Html,
    hasRemovedList (decomposeList l) = false
  | [] => rfl
  | c :: t => by
      cases hd : decomposeTags c with
      | none =>
          unfold decomposeList
          rw [hd]
          exact decomposeList_no_removed t
      | some c2 =>
          unfold decomposeList
          rw [hd]
          unfold hasRemovedList
          rw [decompose_no_removed c c2 hd, decomposeList_no_removed t]
          rfl
end

mutual
/-- A tree already free of removed-name elements survives decomposition
unchanged: nothing other than the four tags is removed. -/
theorem decompose_of_clean : ∀ h : Html,
    hasRemovedTag h = false → decomposeTags h = some h
  | .text _, _ => rfl
  | .elem n cs, hcl => by
      simp only [hasRemovedTag, Bool.or_eq_false_iff] at hcl
      obtain ⟨h1, h2⟩ := hcl
      unfold decomposeTags
      simp only [h1, Bool.false_eq_true, if_false, Option.some.injEq]
      rw [decomposeList_of_clean cs h2]

/-- A child list free of removed-name elements decomposes to itself. -/
theorem decomposeList_of_clean : ∀ l : List Html,
    hasRemovedList l = false → decomposeList l = l
  | [], _ => rfl
  | c :: t, hcl => by
      simp only [hasRemovedList, Bool.or_eq_false_iff] at hcl
      obtain ⟨h1, h2⟩ := hcl
      unfold decomposeList
      rw [decompose_of_clean c h1, decomposeList_of_clean t h2]
end

mutual
/-- The text the cleaner returns is exactly the concatenation of the text
nodes not sitting under a removed element, kept verbatim. -/
theorem text_only_eq_keptText : ∀ h : Html, text_only h = keptText h
  | .text _ => rfl
  | .elem n cs => by
      cases hrn : removedName n with
      | true =>
          unfold text_only decomposeTags keptText
          simp [hrn]
      | false =>
          unfold text_only decomposeTags keptText
          simp only [hrn, Bool.false_eq_true, if_false]
          show get_text (.elem n (decomposeList cs)) = keptTextList cs
          unfold get_text
          exact getTextList_decomposeList cs

/-- Cleaned siblings' concatenated text equals the kept text of the
original siblings. -/
theorem getTextList_decomposeList : ∀ l : List Html,
    getTextList (decomposeList l) = keptTextList l
  | [] => rfl
  | c :: t => by
      cases hd : decomposeTags c with
      | none =>
          have hk : keptText c = "" := by
            rw [← text_only_eq_keptText c]
            unfold text_only
            rw [hd]
          unfold decomposeList keptTextList
          rw [hd, hk, empty_append_str]
          exact getTextList_decomposeList t
      | some c2 =>
          have hk : get_text c2 = keptText c := by
            rw [← text_only_eq_keptText c]
            unfold text_only
            rw [hd]
          unfold decomposeList keptTextList
          rw [hd]
          show get_text c2 ++ getTextList (decomposeList t) = keptText c ++ keptTextList t
          rw [hk, getTextList_decomposeList t]
end

/-- C7: the cleaner removes exactly the elements named style, script, img
and path together with their whole subtrees (survivors hold none of them,
and trees free of them survive unchanged), returns the concatenation of the
remaining text nodes verbatim with no whitespace normalization, and is a
function of the input HTML alone, hence deterministic. -/
theorem cleaner_correct :
    (∀ (h h2 : Html), decomposeTags h = some h2 → hasRemovedTag h2 = false) ∧
    (∀ h : Html, hasRemovedTag h = false → decomposeTags h = some h) ∧
    (∀ h : Html, text_only h = keptText h) ∧
    (∀ h1 h2 : Html, h1 = h2 → text_only h1 = text_only h2) :=
  ⟨decompose_no_removed, decompose_of_clean, text_only_eq_keptText,
    fun _ _ e => congrArg text_only e⟩

/-- The cleaner on the demo document: the script subtree disappears, the
rest of the text is concatenated unchanged. -/
theorem cleaner_demo :
    text_only demoHtml = "Hello world" ∧ hasRemovedTag demoHtml = true := by
  decide

end ArticleDownloader
